import Mathlib

/-!
Verification of the repomatic-backend content pipeline.

This file embeds, in Lean, the decision logic of the repository:

* `ContentProcessor._categorize_item` (src/content_processor.py) — keyword
  categorization of activity items;
* `ContentProcessor.process` — aggregation of pulls/issues/commits into the
  five category buckets;
* `ContentProcessor.fetch_pull_requests` — the time-window filter on pull
  requests (inclusive lower bound, naive timestamps treated as UTC);
* `GitHubCollector.async_fetch_pulls` (src/github_collector.py) — the capped
  windowed fetch loop;
* `ContentEnricher.enrich_content`, `_analyze_pr_with_ai`,
  `_assess_complexity`, `_assess_impact` (src/content_enricher.py);
* `ContentGenerator._generate_with_openai` and the generate-content endpoint
  wrapper (src/content_generator.py, src/app.py).

External services (the GitHub REST API and the OpenAI completion API) are
modelled as oracle functions returning `Except`; a Python exception raised by
a call is the `Except.error` case.  Python dictionaries with possibly-missing
keys are modelled with `Option` fields; `d['k']` is a lookup that fails on
`none` and `d.get('k', v)` is `Option.getD`.
-/

/-- The five category labels returned by `_categorize_item`. -/
inductive Category where
  | documentation
  | bug_fixes
  | features
  | code_changes
  | other
deriving DecidableEq, Repr

/-- Substring search over the underlying character lists: `needle` occurs
contiguously inside `hay`.  This is Python's `needle in hay` on `str`. -/
def sub_occurs (needle : List Char) : List Char → Bool
  | [] => needle.isEmpty
  | c :: cs => needle.isPrefixOf (c :: cs) || sub_occurs needle cs

/-- Python `needle in hay` for strings: substring containment. -/
def str_contains (hay needle : String) : Bool :=
  sub_occurs needle.toList hay.toList

/-- Python `str.lower()`: lowercase every character.  (ASCII case folding;
Python's `lower` agrees with `Char.toLower` on the ASCII range, which covers
all keywords and all inputs in this development.) -/
def py_lower (s : String) : String :=
  ⟨s.data.map Char.toLower⟩

/-- Rule 1 of `_categorize_item`: `any(keyword in title or keyword in body
for keyword in ['doc', 'docs', 'documentation'])`.  Labels are not consulted. -/
def rule1_hit (title body : String) : Bool :=
  ["doc", "docs", "documentation"].any fun k =>
    str_contains title k || str_contains body k

/-- Rule 2: `any(keyword in title or keyword in body or keyword in labels
for keyword in ['bug', 'fix', 'hotfix'])`.  Note that `keyword in labels`
is Python list membership, i.e. equality with one of the labels. -/
def rule2_hit (title body : String) (labels : List String) : Bool :=
  ["bug", "fix", "hotfix"].any fun k =>
    str_contains title k || str_contains body k || labels.contains k

/-- Rule 3: keywords `['feature', 'enhancement', 'feat']`; same shape as
rule 2 (substring on title/body, list membership on labels). -/
def rule3_hit (title body : String) (labels : List String) : Bool :=
  ["feature", "enhancement", "feat"].any fun k =>
    str_contains title k || str_contains body k || labels.contains k

/-- Rule 4: `['refactor', 'perf', 'performance', 'test']` on title or body. -/
def rule4_hit (title body : String) : Bool :=
  ["refactor", "perf", "performance", "test"].any fun k =>
    str_contains title k || str_contains body k

/-- `ContentProcessor._categorize_item`: the item's title, body and labels
are lowercased, then the four keyword rules run in order, first match wins,
with `other` as the default.  (`item.get('title', '')` etc.: a missing field
is the empty string / empty list; callers pass those defaults.) -/
def categorize_item (title body : String) (labels : List String) : Category :=
  if rule1_hit (py_lower title) (py_lower body) then Category.documentation
  else if rule2_hit (py_lower title) (py_lower body) (labels.map py_lower) then Category.bug_fixes
  else if rule3_hit (py_lower title) (py_lower body) (labels.map py_lower) then Category.features
  else if rule4_hit (py_lower title) (py_lower body) then Category.code_changes
  else Category.other

/-- Claim C1 (amended): the four keyword rules are evaluated in fixed
priority order with first match winning (documentation before bug_fixes
before features before code_changes before other); but rule 1 inspects only
title and body, never labels, so an item titled "Bug fix" with labels
["documentation"] resolves to bug_fixes, not documentation; and an item
labeled both "bug" and "feature" (with no rule-1 match in title or body)
resolves to bug_fixes. -/
theorem categorize_first_match_order (t b : String) (ls : List String) :
    ((rule1_hit (py_lower t) (py_lower b) = true →
        categorize_item t b ls = Category.documentation) ∧
     (rule1_hit (py_lower t) (py_lower b) = false →
        rule2_hit (py_lower t) (py_lower b) (ls.map py_lower) = true →
        categorize_item t b ls = Category.bug_fixes) ∧
     (rule1_hit (py_lower t) (py_lower b) = false →
        rule2_hit (py_lower t) (py_lower b) (ls.map py_lower) = false →
        rule3_hit (py_lower t) (py_lower b) (ls.map py_lower) = true →
        categorize_item t b ls = Category.features) ∧
     (rule1_hit (py_lower t) (py_lower b) = false →
        rule2_hit (py_lower t) (py_lower b) (ls.map py_lower) = false →
        rule3_hit (py_lower t) (py_lower b) (ls.map py_lower) = false →
        rule4_hit (py_lower t) (py_lower b) = true →
        categorize_item t b ls = Category.code_changes) ∧
     (rule1_hit (py_lower t) (py_lower b) = false →
        rule2_hit (py_lower t) (py_lower b) (ls.map py_lower) = false →
        rule3_hit (py_lower t) (py_lower b) (ls.map py_lower) = false →
        rule4_hit (py_lower t) (py_lower b) = false →
        categorize_item t b ls = Category.other)) ∧
    categorize_item "Bug fix" "" ["documentation"] = Category.bug_fixes ∧
    (rule1_hit (py_lower t) (py_lower b) = false →
      (ls.map py_lower).contains "bug" = true →
      (ls.map py_lower).contains "feature" = true →
      categorize_item t b ls = Category.bug_fixes) := by
  refine ⟨⟨?_, ?_, ?_, ?_, ?_⟩, by decide, ?_⟩
  · intro h1; simp [categorize_item, h1]
  · intro h1 h2; simp [categorize_item, h1, h2]
  · intro h1 h2 h3; simp [categorize_item, h1, h2, h3]
  · intro h1 h2 h3 h4; simp [categorize_item, h1, h2, h3, h4]
  · intro h1 h2 h3 h4; simp [categorize_item, h1, h2, h3, h4]
  · intro h1 hbug _
    have h2 : rule2_hit (py_lower t) (py_lower b) (ls.map py_lower) = true := by
      unfold rule2_hit
      simp only [List.any_eq_true]
      exact ⟨"bug", by decide, by simp only [Bool.or_eq_true]; exact Or.inr hbug⟩
    simp [categorize_item, h1, h2]

theorem categorize_first_match_order_witness :
    categorize_item "update" "" ["bug", "feature"] = Category.bug_fixes ∧
    categorize_item "Add docs" "" [] = Category.documentation :=
  ⟨(categorize_first_match_order "update" "" ["bug", "feature"]).2.2
      (by decide) (by decide) (by decide),
   (categorize_first_match_order "Add docs" "" []).1.1 (by decide)⟩

/-- Claim C1 counterexample: an item with title "Bug fix" and labels
["documentation"] is NOT categorized as documentation (rule 1 never looks at
labels; rule 2 matches "bug"/"fix" in the title first). -/
theorem categorize_rule_one_ignores_labels :
    categorize_item "Bug fix" "" ["documentation"] = Category.bug_fixes ∧
    categorize_item "Bug fix" "" ["documentation"] ≠ Category.documentation := by
  decide

/-- Claim C2 (amended): label matching in rules 2 and 3 is by exact equality
(Python list membership), not containment: for an item not matching rule 1,
a label equal to "bug", "fix" or "hotfix" yields bug_fixes; for an item not
matching rules 1 and 2, a label equal to "feature", "enhancement" or "feat"
yields features; a label "new-feature" that merely contains a keyword
matches nothing and the item falls through to other. -/
theorem categorize_label_equality (t b : String) (ls : List String) :
    (rule1_hit (py_lower t) (py_lower b) = false →
      ((ls.map py_lower).contains "bug" || (ls.map py_lower).contains "fix" ||
        (ls.map py_lower).contains "hotfix") = true →
      categorize_item t b ls = Category.bug_fixes) ∧
    (rule1_hit (py_lower t) (py_lower b) = false →
      rule2_hit (py_lower t) (py_lower b) (ls.map py_lower) = false →
      ((ls.map py_lower).contains "feature" || (ls.map py_lower).contains "enhancement" ||
        (ls.map py_lower).contains "feat") = true →
      categorize_item t b ls = Category.features) ∧
    categorize_item "" "" ["new-feature"] = Category.other := by
  refine ⟨?_, ?_, by decide⟩
  · intro h1 h
    simp only [Bool.or_eq_true] at h
    have h2 : rule2_hit (py_lower t) (py_lower b) (ls.map py_lower) = true := by
      unfold rule2_hit
      simp only [List.any_eq_true]
      rcases h with (h | h) | h
      · exact ⟨"bug", by decide, by simp only [Bool.or_eq_true]; exact Or.inr h⟩
      · exact ⟨"fix", by decide, by simp only [Bool.or_eq_true]; exact Or.inr h⟩
      · exact ⟨"hotfix", by decide, by simp only [Bool.or_eq_true]; exact Or.inr h⟩
    simp [categorize_item, h1, h2]
  · intro h1 h2 h
    simp only [Bool.or_eq_true] at h
    have h3 : rule3_hit (py_lower t) (py_lower b) (ls.map py_lower) = true := by
      unfold rule3_hit
      simp only [List.any_eq_true]
      rcases h with (h | h) | h
      · exact ⟨"feature", by decide, by simp only [Bool.or_eq_true]; exact Or.inr h⟩
      · exact ⟨"enhancement", by decide, by simp only [Bool.or_eq_true]; exact Or.inr h⟩
      · exact ⟨"feat", by decide, by simp only [Bool.or_eq_true]; exact Or.inr h⟩
    simp [categorize_item, h1, h2, h3]

theorem categorize_label_equality_witness :
    categorize_item "update" "" ["hotfix"] = Category.bug_fixes ∧
    categorize_item "update" "" ["enhancement"] = Category.features :=
  ⟨(categorize_label_equality "update" "" ["hotfix"]).1 (by decide) (by decide),
   (categorize_label_equality "update" "" ["enhancement"]).2.1
      (by decide) (by decide) (by decide)⟩

/-- Claim C2 counterexample: a label "new-feature" contains the keyword
"feature" but does not equal it, so the item is NOT categorized as features
(Python `keyword in labels` is list membership, not substring search). -/
theorem categorize_label_containment_fails :
    categorize_item "" "" ["new-feature"] ≠ Category.features := by decide

/-- Claim C9: keyword matching on title and body is substring containment on
the case-folded text, not token matching: any item titled
"defeature old API" that matches no higher-priority rule is categorized as
features, because "feat" (indeed "feature") occurs inside "defeature". -/
theorem categorize_substring_containment (b : String) (ls : List String)
    (h1 : rule1_hit "defeature old api" (py_lower b) = false)
    (h2 : rule2_hit "defeature old api" (py_lower b) (ls.map py_lower) = false) :
    categorize_item "defeature old API" b ls = Category.features ∧
    str_contains "defeature" "feat" = true := by
  have e : py_lower "defeature old API" = "defeature old api" := rfl
  constructor
  · have hsc : str_contains "defeature old api" "feature" = true := by decide
    have h3 : rule3_hit "defeature old api" (py_lower b) (ls.map py_lower) = true := by
      simp [rule3_hit, hsc]
    simp [categorize_item, e, h1, h2, h3]
  · decide

theorem categorize_substring_containment_witness :
    categorize_item "defeature old API" "" [] = Category.features ∧
    str_contains "defeature" "feat" = true :=
  categorize_substring_containment "" [] (by decide) (by decide)

/-! ## Content enricher (src/content_enricher.py) -/

/-- One entry of the `file_changes` summary built in `enrich_content`:
filename, added and removed line counts, and status. -/
structure FileChange where
  filename : String
  additions : Nat
  deletions : Nat
  status : String
deriving DecidableEq, Repr

/-- One entry of the `commit_summary` built in `enrich_content`. -/
structure CommitInfo where
  sha : String
  message : String
  author : String
deriving DecidableEq, Repr

/-- `ContentEnricher._assess_complexity`: total added+removed lines across
the changed files, bucketed at 50 and 200. -/
def assess_complexity (file_changes : List FileChange) : String :=
  let total_changes := (file_changes.map fun f => f.additions + f.deletions).sum
  if total_changes < 50 then "Low"
  else if total_changes < 200 then "Medium"
  else "High"

/-- `ContentEnricher._assess_impact`: joint bucketing of file count and
commit count at 3 and 10. -/
def assess_impact (file_changes : List FileChange) (commits : List CommitInfo) : String :=
  if file_changes.length < 3 ∧ commits.length < 3 then "Low"
  else if file_changes.length < 10 ∧ commits.length < 10 then "Medium"
  else "High"

/-- Total added+removed lines, as summed inside `_assess_complexity`. -/
def total_changed_lines (file_changes : List FileChange) : Nat :=
  (file_changes.map fun f => f.additions + f.deletions).sum

/-- Claim C6: the complexity tier is a function of the total added+removed
line count with thresholds: total < 50 yields Low, 50 ≤ total < 200 yields
Medium, total ≥ 200 yields High. -/
theorem assess_complexity_thresholds (fc : List FileChange) :
    (total_changed_lines fc < 50 → assess_complexity fc = "Low") ∧
    (50 ≤ total_changed_lines fc → total_changed_lines fc < 200 →
      assess_complexity fc = "Medium") ∧
    (200 ≤ total_changed_lines fc → assess_complexity fc = "High") := by
  unfold assess_complexity total_changed_lines
  refine ⟨fun h => ?_, fun h1 h2 => ?_, fun h => ?_⟩
  · rw [if_pos h]
  · rw [if_neg (by omega), if_pos h2]
  · rw [if_neg (by omega), if_neg (by omega)]

theorem assess_complexity_thresholds_witness :
    assess_complexity [⟨"a.py", 49, 0, "modified"⟩] = "Low" ∧
    assess_complexity [⟨"a.py", 30, 20, "modified"⟩] = "Medium" ∧
    assess_complexity [⟨"a.py", 100, 99, "modified"⟩] = "Medium" ∧
    assess_complexity [⟨"a.py", 150, 50, "modified"⟩] = "High" :=
  ⟨(assess_complexity_thresholds [⟨"a.py", 49, 0, "modified"⟩]).1 (by decide),
   (assess_complexity_thresholds [⟨"a.py", 30, 20, "modified"⟩]).2.1 (by decide) (by decide),
   (assess_complexity_thresholds [⟨"a.py", 100, 99, "modified"⟩]).2.1 (by decide) (by decide),
   (assess_complexity_thresholds [⟨"a.py", 150, 50, "modified"⟩]).2.2 (by decide)⟩

/-- Claim C7: the impact tier is Low when both the file count and the commit
count are below 3, Medium when not Low but both are below 10, and High
otherwise. -/
theorem assess_impact_thresholds (fc : List FileChange) (cs : List CommitInfo) :
    (fc.length < 3 → cs.length < 3 → assess_impact fc cs = "Low") ∧
    (¬(fc.length < 3 ∧ cs.length < 3) → fc.length < 10 → cs.length < 10 →
      assess_impact fc cs = "Medium") ∧
    (¬(fc.length < 10 ∧ cs.length < 10) → assess_impact fc cs = "High") := by
  unfold assess_impact
  refine ⟨fun h1 h2 => ?_, fun h1 h2 h3 => ?_, fun h => ?_⟩
  · rw [if_pos ⟨h1, h2⟩]
  · rw [if_neg h1, if_pos ⟨h2, h3⟩]
  · rw [if_neg (by omega), if_neg h]

theorem assess_impact_thresholds_witness :
    assess_impact (List.replicate 2 ⟨"a", 1, 1, "m"⟩) (List.replicate 2 ⟨"s", "m", "a"⟩) = "Low" ∧
    assess_impact (List.replicate 9 ⟨"a", 1, 1, "m"⟩) (List.replicate 9 ⟨"s", "m", "a"⟩) = "Medium" ∧
    assess_impact (List.replicate 10 ⟨"a", 1, 1, "m"⟩) (List.replicate 1 ⟨"s", "m", "a"⟩) = "High" :=
  ⟨(assess_impact_thresholds _ _).1 (by decide) (by decide),
   (assess_impact_thresholds (List.replicate 9 ⟨"a", 1, 1, "m"⟩)
      (List.replicate 9 ⟨"s", "m", "a"⟩)).2.1 (by decide) (by decide) (by decide),
   (assess_impact_thresholds (List.replicate 10 ⟨"a", 1, 1, "m"⟩)
      (List.replicate 1 ⟨"s", "m", "a"⟩)).2.2 (by decide)⟩

/-- The PR object returned by `repo.get_pull(pr_number)`, restricted to the
fields `enrich_content` reads.  `body` models `pr.body or ''` (Python None
becomes the empty string). -/
structure PRInfo where
  title : String
  body : String
  state : String
  merged : Bool
deriving DecidableEq, Repr

/-- The analysis triple produced by `_analyze_pr_with_ai`. -/
structure Analysis where
  summary : String
  complexity : String
  impact : String
deriving DecidableEq, Repr

/-- The enriched record appended to `enriched_prs` for one pull request. -/
structure EnrichedPR where
  number : Int
  title : String
  body : String
  state : String
  merged : Bool
  files_changed : List FileChange
  commits : List CommitInfo
  analysis : Analysis
deriving DecidableEq, Repr

/-- One element of `selected_items`: the fields the loop reads. -/
structure SelectedItem where
  type : String
  number : Int
deriving DecidableEq, Repr

/-- The external services used during enrichment, as oracles.  `get_pull`,
`get_files` and `get_commits` are the GitHub API calls made per item (a
raised exception is `Except.error`); `ai_complete` is the OpenAI
chat-completion call on the prepared context string. -/
structure EnrichOracle where
  get_pull : Int → Except String PRInfo
  get_files : Int → Except String (List FileChange)
  get_commits : Int → Except String (List CommitInfo)
  ai_complete : String → Except String String

/-- `ContentEnricher._format_file_changes`: first five files, one line each. -/
def format_file_changes (file_changes : List FileChange) : String :=
  String.intercalate "\n" ((file_changes.take 5).map fun f =>
    "- " ++ f.filename ++ ": +" ++ toString f.additions ++ ", -" ++
      toString f.deletions ++ ", " ++ f.status)

/-- `ContentEnricher._format_commits`: first five commit messages. -/
def format_commits (commits : List CommitInfo) : String :=
  String.intercalate "\n" ((commits.take 5).map fun c => "- " ++ c.message)

/-- The context string assembled inside `_analyze_pr_with_ai` (surrounding
indentation elided; the content and order of the interpolated parts are
kept). -/
def analysis_context (pr : PRInfo) (file_changes : List FileChange)
    (commit_summary : List CommitInfo) : String :=
  "Pull Request Title: " ++ pr.title ++ "\n" ++
  "Description: " ++ (if pr.body = "" then "No description provided" else pr.body) ++ "\n\n" ++
  "Files Changed: " ++ toString file_changes.length ++ "\n" ++
  "Total Commits: " ++ toString commit_summary.length ++ "\n\n" ++
  "File Changes Summary:\n" ++ format_file_changes file_changes ++ "\n\n" ++
  "Commit Messages:\n" ++ format_commits commit_summary

/-- `ContentEnricher._analyze_pr_with_ai`: ask the completion oracle for a
summary; on success pair it with the computed complexity and impact tiers,
and on any failure degrade to the fixed placeholder triple. -/
def analyze_pr_with_ai (o : EnrichOracle) (pr : PRInfo)
    (file_changes : List FileChange) (commit_summary : List CommitInfo) : Analysis :=
  match o.ai_complete (analysis_context pr file_changes commit_summary) with
  | Except.ok s => ⟨s, assess_complexity file_changes, assess_impact file_changes commit_summary⟩
  | Except.error _ => ⟨"AI analysis failed", "Unknown", "Unknown"⟩

/-- The per-item body of the `enrich_content` loop.  `none` is the
skip-and-continue outcome: either the item is not a pull request (the `if`
fails and nothing is appended) or some upstream call raised and the
exception was caught by the per-item handler. -/
def enrich_item (o : EnrichOracle) (item : SelectedItem) : Option EnrichedPR :=
  if item.type = "pull_request" then
    match o.get_pull item.number, o.get_files item.number, o.get_commits item.number with
    | Except.ok pr, Except.ok file_changes, Except.ok commit_summary =>
      some { number := item.number
             title := pr.title
             body := pr.body
             state := pr.state
             merged := pr.merged
             files_changed := file_changes
             commits := commit_summary
             analysis := analyze_pr_with_ai o pr file_changes commit_summary }
    | _, _, _ => none
  else none

/-- `ContentEnricher.enrich_content` after the repository handle is
obtained: process items in order, appending each successfully enriched pull
request and skipping every failing or non-PR item. -/
def enrich_content (o : EnrichOracle) (selected_items : List SelectedItem) : List EnrichedPR :=
  selected_items.filterMap (enrich_item o)

/-- Claim C5: enrichment failure is isolated per item.  Items whose type is
not "pull_request" are skipped without error; if the completion call fails
the item is still returned, with the placeholder analysis triple
("AI analysis failed", "Unknown", "Unknown"); if a per-item upstream call
fails for any other reason the item is skipped and the remaining items are
still processed, so one bad item never fails the whole request. -/
theorem enrich_content_isolation (o : EnrichOracle) (item : SelectedItem)
    (rest : List SelectedItem) :
    (item.type ≠ "pull_request" →
      enrich_content o (item :: rest) = enrich_content o rest) ∧
    (∀ (pr : PRInfo) (fc : List FileChange) (cs : List CommitInfo),
      item.type = "pull_request" →
      o.get_pull item.number = Except.ok pr →
      o.get_files item.number = Except.ok fc →
      o.get_commits item.number = Except.ok cs →
      (∃ e, o.ai_complete (analysis_context pr fc cs) = Except.error e) →
      enrich_content o (item :: rest) =
        { number := item.number, title := pr.title, body := pr.body, state := pr.state,
          merged := pr.merged, files_changed := fc, commits := cs,
          analysis := ⟨"AI analysis failed", "Unknown", "Unknown"⟩ } :: enrich_content o rest) ∧
    (∀ e, o.get_pull item.number = Except.error e →
      enrich_content o (item :: rest) = enrich_content o rest) := by
  refine ⟨fun h => ?_, fun pr fc cs ht hp hf hc ⟨e, he⟩ => ?_, fun e he => ?_⟩
  · simp [enrich_content, enrich_item, h]
  · simp [enrich_content, enrich_item, ht, hp, hf, hc, analyze_pr_with_ai, he]
  · by_cases ht : item.type = "pull_request"
    · simp [enrich_content, enrich_item, ht, he]
    · simp [enrich_content, enrich_item, ht]

theorem enrich_content_isolation_witness :
    (enrich_content ⟨fun _ => Except.error "boom", fun _ => Except.ok [],
        fun _ => Except.ok [], fun _ => Except.ok "ok"⟩ [⟨"issue", 1⟩] =
      enrich_content ⟨fun _ => Except.error "boom", fun _ => Except.ok [],
        fun _ => Except.ok [], fun _ => Except.ok "ok"⟩ []) ∧
    (enrich_content ⟨fun _ => Except.ok ⟨"t", "b", "open", false⟩, fun _ => Except.ok [],
        fun _ => Except.ok [], fun _ => Except.error "down"⟩ [⟨"pull_request", 2⟩] =
      [{ number := 2, title := "t", body := "b", state := "open", merged := false,
         files_changed := [], commits := [],
         analysis := ⟨"AI analysis failed", "Unknown", "Unknown"⟩ }]) ∧
    (enrich_content ⟨fun _ => Except.error "boom", fun _ => Except.ok [],
        fun _ => Except.ok [], fun _ => Except.ok "ok"⟩
        [⟨"pull_request", 3⟩, ⟨"pull_request", 4⟩] =
      enrich_content ⟨fun _ => Except.error "boom", fun _ => Except.ok [],
        fun _ => Except.ok [], fun _ => Except.ok "ok"⟩ [⟨"pull_request", 4⟩]) :=
  ⟨(enrich_content_isolation _ ⟨"issue", 1⟩ []).1 (by decide),
   (enrich_content_isolation ⟨fun _ => Except.ok ⟨"t", "b", "open", false⟩,
        fun _ => Except.ok [], fun _ => Except.ok [], fun _ => Except.error "down"⟩
      ⟨"pull_request", 2⟩ []).2.1 ⟨"t", "b", "open", false⟩ [] [] rfl rfl rfl rfl ⟨"down", rfl⟩,
   (enrich_content_isolation _ ⟨"pull_request", 3⟩ [⟨"pull_request", 4⟩]).2.2 "boom" rfl⟩

/-! ## Time-window filtering (src/content_processor.py `fetch_pull_requests`
and src/github_collector.py `async_fetch_pulls`) -/

/-- A Python `datetime`, reduced to what the comparison logic uses: the
wall-clock reading in seconds and an optional UTC offset in seconds.
`tzOffset = none` is a naive (zone-less) datetime. -/
structure PyDatetime where
  wall : Int
  tzOffset : Option Int
deriving DecidableEq, Repr

/-- `pr.created_at.replace(tzinfo=timezone.utc) if pr.created_at.tzinfo is
None else pr.created_at`: a naive datetime is stamped as UTC, an aware one
is kept. -/
def ensure_utc (d : PyDatetime) : PyDatetime :=
  match d.tzOffset with
  | none => ⟨d.wall, some 0⟩
  | some _ => d

/-- The instant (seconds since epoch) denoted by an aware datetime; Python
compares aware datetimes by this value.  A missing offset reads as UTC. -/
def instant_of (d : PyDatetime) : Int :=
  d.wall - d.tzOffset.getD 0

/-- The pull-request record as read by `fetch_pull_requests`: only the
creation timestamp matters to the window logic; the remaining fields are
carried through to the output record. -/
structure CPPull where
  number : Int
  title : String
  body : String
  created_at : PyDatetime
  state : String
  url : String
  author : String
  labels : List String
  merged : Bool
deriving DecidableEq, Repr

/-- The `pr_data` dict built for one pull request; `created_at` is the
normalized (timezone-aware UTC) timestamp being serialized. -/
structure CPPullData where
  number : Int
  title : String
  body : String
  created_at : Int
  state : String
  url : String
  author : String
  labels : List String
  merged : Bool
deriving DecidableEq, Repr

/-- Projection of one upstream pull request to its `pr_data` dict. -/
def cp_pull_data (pr : CPPull) : CPPullData :=
  ⟨pr.number, pr.title, pr.body, instant_of (ensure_utc pr.created_at),
   pr.state, pr.url, pr.author, pr.labels, pr.merged⟩

/-- `since_date = datetime.now(timezone.utc) - timedelta(days=days_back)`,
in seconds since epoch. -/
def since_date (now : Int) (days_back : Int) : Int :=
  now - days_back * 86400

/-- The `for pr in pulls` loop of `ContentProcessor.fetch_pull_requests`:
normalize the creation timestamp to aware UTC, `break` as soon as it is
strictly before `since_date`, otherwise append the `pr_data` record.  There
is no count cap in this loop. -/
def fetch_pull_requests (sd : Int) : List CPPull → List CPPullData
  | [] => []
  | pr :: rest =>
    if instant_of (ensure_utc pr.created_at) < sd then []
    else cp_pull_data pr :: fetch_pull_requests sd rest

/-- Claim C3: the time-window filter has an inclusive lower bound: a pull
request created exactly at `now - days_back` days is kept (and scanning
continues), one created one second older is excluded (and the loop breaks),
and a naive creation timestamp is stamped as UTC before the comparison, so
its wall-clock reading is compared as a UTC instant. -/
theorem fetch_window_inclusive_boundary (now days_back : Int) (pr : CPPull)
    (rest : List CPPull) :
    (instant_of (ensure_utc pr.created_at) = since_date now days_back →
      fetch_pull_requests (since_date now days_back) (pr :: rest) =
        cp_pull_data pr :: fetch_pull_requests (since_date now days_back) rest) ∧
    (instant_of (ensure_utc pr.created_at) = since_date now days_back - 1 →
      fetch_pull_requests (since_date now days_back) (pr :: rest) = []) ∧
    (∀ w : Int, ensure_utc ⟨w, none⟩ = ⟨w, some 0⟩ ∧
      instant_of (ensure_utc ⟨w, none⟩) = w) := by
  refine ⟨fun h => ?_, fun h => ?_, fun w => ⟨rfl, by simp [ensure_utc, instant_of]⟩⟩
  · show (if instant_of (ensure_utc pr.created_at) < since_date now days_back
        then ([] : List CPPullData)
        else cp_pull_data pr :: fetch_pull_requests (since_date now days_back) rest) = _
    rw [if_neg (by omega)]
  · show (if instant_of (ensure_utc pr.created_at) < since_date now days_back
        then ([] : List CPPullData)
        else cp_pull_data pr :: fetch_pull_requests (since_date now days_back) rest) = _
    rw [if_pos (by omega)]

theorem fetch_window_inclusive_boundary_witness :
    (fetch_pull_requests (since_date 604800 7)
      [⟨1, "t", "", ⟨0, none⟩, "open", "u", "a", [], false⟩] =
      [⟨1, "t", "", 0, "open", "u", "a", [], false⟩]) ∧
    (fetch_pull_requests (since_date 604800 7)
      [⟨2, "t", "", ⟨-1, some 0⟩, "open", "u", "a", [], false⟩] = []) :=
  ⟨(fetch_window_inclusive_boundary 604800 7
      ⟨1, "t", "", ⟨0, none⟩, "open", "u", "a", [], false⟩ []).1 (by decide),
   (fetch_window_inclusive_boundary 604800 7
      ⟨2, "t", "", ⟨-1, some 0⟩, "open", "u", "a", [], false⟩ []).2.1 (by decide)⟩

/-- One pull request as returned by the GitHub REST `pulls` endpoint,
restricted to the fields `async_fetch_pulls` reads.  `created_at` is the
instant parsed by `datetime.fromisoformat` (the code replaces a trailing Z
with +00:00, so it is always timezone-aware UTC). -/
structure APIPull where
  number : Int
  title : String
  body : String
  state : String
  created_at : Int
  updated_at : String
  merged_at : Option String
  html_url : String
  user_login : String
deriving DecidableEq, Repr

/-- The dict appended to `processed_pulls` for one pull request. -/
structure PullRec where
  number : Int
  title : String
  body : String
  state : String
  created_at : Int
  updated_at : String
  merged_at : Option String
  url : String
  author : String
deriving DecidableEq, Repr

/-- Projection of an upstream pull to its `processed_pulls` record. -/
def proj_pull (p : APIPull) : PullRec :=
  ⟨p.number, p.title, p.body, p.state, p.created_at, p.updated_at,
   p.merged_at, p.html_url, p.user_login⟩

/-- The `for pull in pulls` loop of `GitHubCollector.async_fetch_pulls`:
append the record when `created_at >= since_date`, then break when
`len(processed_pulls) >= max_items`.  The accumulator holds the appended
records in reverse; the two branches split on the filter so that the length
check sees `acc.length + 1` exactly when a record was appended. -/
def async_fetch_pulls_loop (sd : Int) (max_items : Nat) (acc : List PullRec) :
    List APIPull → List PullRec
  | [] => acc.reverse
  | pull :: rest =>
    if sd ≤ pull.created_at then
      if max_items ≤ acc.length + 1 then (proj_pull pull :: acc).reverse
      else async_fetch_pulls_loop sd max_items (proj_pull pull :: acc) rest
    else
      if max_items ≤ acc.length then acc.reverse
      else async_fetch_pulls_loop sd max_items acc rest

/-- `GitHubCollector.async_fetch_pulls` after the HTTP response arrived:
run the filter-and-cap loop over the returned page. -/
def async_fetch_pulls (sd : Int) (max_items : Nat) (pulls : List APIPull) : List PullRec :=
  async_fetch_pulls_loop sd max_items [] pulls

/-- Modelled from the spec (reference function for the claim): drop items
until either the count cap is exhausted or an item crosses the date
boundary, whichever happens first. -/
def spec_capped_window (sd : Int) : Nat → List APIPull → List PullRec
  | _, [] => []
  | 0, _ :: _ => []
  | k + 1, pull :: rest =>
    if sd ≤ pull.created_at then proj_pull pull :: spec_capped_window sd k rest
    else []

theorem spec_capped_window_zero (sd : Int) (l : List APIPull) :
    spec_capped_window sd 0 l = [] := by
  cases l <;> rfl

theorem async_loop_length (sd : Int) (m : Nat) (l : List APIPull) :
    ∀ acc : List PullRec, acc.length < m →
      (async_fetch_pulls_loop sd m acc l).length ≤ m := by
  induction l with
  | nil =>
    intro acc h
    simp only [async_fetch_pulls_loop, List.length_reverse]
    omega
  | cons p rest ih =>
    intro acc h
    simp only [async_fetch_pulls_loop]
    by_cases hp : sd ≤ p.created_at
    · rw [if_pos hp]
      by_cases hm : m ≤ acc.length + 1
      · rw [if_pos hm]
        simp only [List.length_reverse, List.length_cons]
        omega
      · rw [if_neg hm]
        exact ih _ (by simp only [List.length_cons]; omega)
    · rw [if_neg hp, if_neg (by omega)]
      exact ih acc h

theorem async_loop_allfail (sd : Int) (m : Nat) (l : List APIPull) :
    ∀ acc : List PullRec, (∀ q ∈ l, ¬ sd ≤ q.created_at) → acc.length < m →
      async_fetch_pulls_loop sd m acc l = acc.reverse := by
  induction l with
  | nil => intro acc _ _; rfl
  | cons p rest ih =>
    intro acc hall h
    simp only [async_fetch_pulls_loop]
    rw [if_neg (hall p (by simp)), if_neg (by omega)]
    exact ih acc (fun q hq => hall q (by simp [hq])) h

theorem async_loop_spec (sd : Int) (m : Nat) (l : List APIPull) :
    ∀ acc : List PullRec,
      l.Pairwise (fun a b => b.created_at ≤ a.created_at) →
      acc.length < m →
      async_fetch_pulls_loop sd m acc l =
        acc.reverse ++ spec_capped_window sd (m - acc.length) l := by
  induction l with
  | nil =>
    intro acc _ h
    obtain ⟨k, hk⟩ : ∃ k, m - acc.length = k := ⟨m - acc.length, rfl⟩
    simp [async_fetch_pulls_loop, hk, spec_capped_window]
  | cons p rest ih =>
    intro acc hs h
    rw [List.pairwise_cons] at hs
    obtain ⟨hhead, hrest⟩ := hs
    obtain ⟨k, hk⟩ : ∃ k, m - acc.length = k + 1 := ⟨m - acc.length - 1, by omega⟩
    rw [hk]
    simp only [async_fetch_pulls_loop]
    by_cases hp : sd ≤ p.created_at
    · rw [if_pos hp]
      by_cases hm : m ≤ acc.length + 1
      · rw [if_pos hm]
        have hk0 : k = 0 := by omega
        subst hk0
        simp [spec_capped_window, hp, spec_capped_window_zero]
      · rw [if_neg hm]
        rw [ih (proj_pull p :: acc) hrest (by simp only [List.length_cons]; omega)]
        have hk2 : m - (proj_pull p :: acc).length = k := by
          simp only [List.length_cons]; omega
        rw [hk2]
        simp [spec_capped_window, hp]
    · rw [if_neg hp, if_neg (by omega)]
      rw [async_loop_allfail sd m rest acc
        (fun q hq => by have := hhead q hq; omega) h]
      simp [spec_capped_window, hp]

/-- Claim C8 (amended): the GitHubCollector pull fetch returns at most the
fixed cap of 30 items; and, assuming the upstream page arrives in descending
creation-recency order, its result is exactly the page truncated at the
first of the count cap or the date boundary (whichever happens first).  The
ContentProcessor pull fetch, by contrast, has no count cap and stops only at
the date boundary. -/
theorem async_fetch_pulls_cap (sd : Int) (pulls : List APIPull) :
    (async_fetch_pulls sd 30 pulls).length ≤ 30 ∧
    (pulls.Pairwise (fun a b => b.created_at ≤ a.created_at) →
      async_fetch_pulls sd 30 pulls = spec_capped_window sd 30 pulls) := by
  constructor
  · exact async_loop_length sd 30 pulls [] (by simp)
  · intro hs
    simpa [async_fetch_pulls] using async_loop_spec sd 30 pulls [] hs (by simp)

theorem async_fetch_pulls_cap_witness :
    (async_fetch_pulls 50 30
        [⟨1, "t", "", "open", 100, "u", none, "h", "a"⟩,
         ⟨2, "t", "", "open", 0, "u", none, "h", "a"⟩]).length ≤ 30 ∧
    async_fetch_pulls 50 30
        [⟨1, "t", "", "open", 100, "u", none, "h", "a"⟩,
         ⟨2, "t", "", "open", 0, "u", none, "h", "a"⟩] =
      spec_capped_window 50 30
        [⟨1, "t", "", "open", 100, "u", none, "h", "a"⟩,
         ⟨2, "t", "", "open", 0, "u", none, "h", "a"⟩] :=
  ⟨(async_fetch_pulls_cap 50 _).1,
   (async_fetch_pulls_cap 50
      [⟨1, "t", "", "open", 100, "u", none, "h", "a"⟩,
       ⟨2, "t", "", "open", 0, "u", none, "h", "a"⟩]).2
      (by simp [List.pairwise_cons])⟩

/-- Claim C8 counterexample: `ContentProcessor.fetch_pull_requests` applies
no count cap — on a page of 31 in-window pull requests it returns all 31
items, more than the claimed fixed cap of 30. -/
theorem fetch_pull_requests_uncapped :
    30 < (fetch_pull_requests 0 (List.replicate 31
      ⟨0, "t", "", ⟨0, some 0⟩, "open", "u", "a", [], false⟩)).length := by
  decide

/-! ## Aggregation (src/content_processor.py `process`) -/

/-- A raw pull-request record as consumed by `process` (field defaults from
`pr.get(...)`: a missing body is the empty string, missing labels the empty
list). -/
structure RawPull where
  number : Int
  title : String
  body : String
  url : String
  created_at : String
  author : String
  labels : List String
deriving DecidableEq, Repr

/-- A raw issue record as consumed by `process`; same shape as a pull. -/
structure RawIssue where
  number : Int
  title : String
  body : String
  url : String
  created_at : String
  author : String
  labels : List String
deriving DecidableEq, Repr

/-- A raw commit record as consumed by `process`.  It has no title, body or
labels, so `_categorize_item` sees only the defaults for it. -/
structure RawCommit where
  sha : String
  message : String
  url : String
  created_at : String
  author : String
deriving DecidableEq, Repr

/-- The normalized `item_data` record appended to a category list. -/
inductive ProcessedItem where
  | pullRequest (number : Int) (title body url created_at author : String)
      (labels : List String)
  | issue (number : Int) (title body url created_at author : String)
      (labels : List String)
  | commit (sha message url created_at author : String)
deriving DecidableEq, Repr

/-- The `processed_content` dict: always exactly the five category keys. -/
structure ProcessedContent where
  code_changes : List ProcessedItem
  bug_fixes : List ProcessedItem
  features : List ProcessedItem
  documentation : List ProcessedItem
  other : List ProcessedItem
deriving DecidableEq, Repr

/-- `_categorize_item` applied to a raw pull record. -/
def categorize_pull (pr : RawPull) : Category :=
  categorize_item pr.title pr.body pr.labels

/-- `_categorize_item` applied to a raw issue record. -/
def categorize_issue (i : RawIssue) : Category :=
  categorize_item i.title i.body i.labels

/-- `_categorize_item` applied to a raw commit record: a commit dict has no
title, body or labels keys, so every `get` yields its default. -/
def categorize_commit (_ : RawCommit) : Category :=
  categorize_item "" "" []

/-- The `item_data` built for one pull request. -/
def pull_item (pr : RawPull) : ProcessedItem :=
  ProcessedItem.pullRequest pr.number pr.title pr.body pr.url pr.created_at
    pr.author pr.labels

/-- The `item_data` built for one issue. -/
def issue_item (i : RawIssue) : ProcessedItem :=
  ProcessedItem.issue i.number i.title i.body i.url i.created_at i.author i.labels

/-- The `item_data` built for one commit. -/
def commit_item (c : RawCommit) : ProcessedItem :=
  ProcessedItem.commit c.sha c.message c.url c.created_at c.author

/-- `processed_content[category].append(item_data)`. -/
def append_to_category (pc : ProcessedContent) (c : Category) (it : ProcessedItem) :
    ProcessedContent :=
  match c with
  | Category.code_changes => { pc with code_changes := pc.code_changes ++ [it] }
  | Category.bug_fixes => { pc with bug_fixes := pc.bug_fixes ++ [it] }
  | Category.features => { pc with features := pc.features ++ [it] }
  | Category.documentation => { pc with documentation := pc.documentation ++ [it] }
  | Category.other => { pc with other := pc.other ++ [it] }

/-- Lookup of one category list in the output dict. -/
def get_category (pc : ProcessedContent) : Category → List ProcessedItem
  | Category.code_changes => pc.code_changes
  | Category.bug_fixes => pc.bug_fixes
  | Category.features => pc.features
  | Category.documentation => pc.documentation
  | Category.other => pc.other

/-- The input of `process`: the `pulls`, `issues` and `commits` lists. -/
structure ActivityData where
  pulls : List RawPull
  issues : List RawIssue
  commits : List RawCommit
deriving DecidableEq, Repr

/-- `ContentProcessor.process`: start from the five empty lists, then walk
pull requests, then issues, then commits, appending each item's normalized
record to the list of its category. -/
def process (d : ActivityData) : ProcessedContent :=
  let pc0 : ProcessedContent :=
    { code_changes := [], bug_fixes := [], features := [], documentation := [], other := [] }
  let pc1 := d.pulls.foldl (fun pc pr => append_to_category pc (categorize_pull pr) (pull_item pr)) pc0
  let pc2 := d.issues.foldl (fun pc i => append_to_category pc (categorize_issue i) (issue_item i)) pc1
  d.commits.foldl (fun pc cm => append_to_category pc (categorize_commit cm) (commit_item cm)) pc2

/-- The input items in processing order (pulls, then issues, then commits),
each paired with its category. -/
def categorized_stream (d : ActivityData) : List (Category × ProcessedItem) :=
  d.pulls.map (fun pr => (categorize_pull pr, pull_item pr)) ++
  d.issues.map (fun i => (categorize_issue i, issue_item i)) ++
  d.commits.map (fun cm => (categorize_commit cm, commit_item cm))

/-- Combined size of the five category lists. -/
def total_items (pc : ProcessedContent) : Nat :=
  pc.code_changes.length + pc.bug_fixes.length + pc.features.length +
    pc.documentation.length + pc.other.length

theorem get_category_append (pc : ProcessedContent) (k : Category)
    (it : ProcessedItem) (c : Category) :
    get_category (append_to_category pc k it) c =
      if k = c then get_category pc c ++ [it] else get_category pc c := by
  cases k <;> cases c <;> simp [append_to_category, get_category]

theorem get_category_foldl {α : Type} (cat : α → Category) (itm : α → ProcessedItem)
    (l : List α) :
    ∀ (pc : ProcessedContent) (c : Category),
      get_category (l.foldl (fun pc x => append_to_category pc (cat x) (itm x)) pc) c =
        get_category pc c ++ (l.filter fun x => decide (cat x = c)).map itm := by
  induction l with
  | nil => intro pc c; simp
  | cons a l ih =>
    intro pc c
    simp only [List.foldl_cons]
    rw [ih]
    rw [get_category_append]
    by_cases h : cat a = c
    · rw [if_pos h, List.filter_cons_of_pos (by simpa using h)]
      simp
    · rw [if_neg h, List.filter_cons_of_neg (by simpa using h)]

theorem filter_fst_map {α : Type} (g : α → Category × ProcessedItem) (l : List α)
    (c : Category) :
    ((l.map g).filter fun x => decide (x.1 = c)).map Prod.snd =
      (l.filter fun a => decide ((g a).1 = c)).map fun a => (g a).2 := by
  induction l with
  | nil => rfl
  | cons a l ih =>
    simp only [List.map_cons]
    by_cases h : (g a).1 = c
    · rw [List.filter_cons_of_pos (by simpa using h),
        List.filter_cons_of_pos (by simpa using h)]
      simp only [List.map_cons, ih]
    · rw [List.filter_cons_of_neg (by simpa using h),
        List.filter_cons_of_neg (by simpa using h)]
      exact ih

theorem filter_five_categories (l : List (Category × ProcessedItem)) :
    (l.filter fun x => decide (x.1 = Category.code_changes)).length +
    (l.filter fun x => decide (x.1 = Category.bug_fixes)).length +
    (l.filter fun x => decide (x.1 = Category.features)).length +
    (l.filter fun x => decide (x.1 = Category.documentation)).length +
    (l.filter fun x => decide (x.1 = Category.other)).length = l.length := by
  induction l with
  | nil => rfl
  | cons a l ih =>
    cases h : a.1 <;> simp [List.filter_cons, h] <;> omega

/-- Claim C4: the output of `process` always has exactly the five category
keys (the `ProcessedContent` structure), each category list is exactly the
subsequence of the categorized input stream (pull requests, then issues,
then commits, each in source order) whose category matches, so every input
item lands in exactly one category list, and the five lists together contain
exactly as many items as the input. -/
theorem process_partitions_items (d : ActivityData) :
    (∀ c, get_category (process d) c =
      ((categorized_stream d).filter fun x => decide (x.1 = c)).map Prod.snd) ∧
    total_items (process d) = d.pulls.length + d.issues.length + d.commits.length := by
  have h0 : ∀ c, get_category ⟨[], [], [], [], []⟩ c = [] := by
    intro c; cases c <;> rfl
  have hc : ∀ c, get_category (process d) c =
      ((categorized_stream d).filter fun x => decide (x.1 = c)).map Prod.snd := by
    intro c
    simp only [process]
    rw [get_category_foldl categorize_commit commit_item,
        get_category_foldl categorize_issue issue_item,
        get_category_foldl categorize_pull pull_item, h0]
    simp only [categorized_stream, List.filter_append, List.map_append]
    rw [filter_fst_map, filter_fst_map, filter_fst_map]
    simp [List.append_assoc]
  refine ⟨hc, ?_⟩
  have e1 : (process d).code_changes = get_category (process d) Category.code_changes := rfl
  have e2 : (process d).bug_fixes = get_category (process d) Category.bug_fixes := rfl
  have e3 : (process d).features = get_category (process d) Category.features := rfl
  have e4 : (process d).documentation = get_category (process d) Category.documentation := rfl
  have e5 : (process d).other = get_category (process d) Category.other := rfl
  simp only [total_items]
  rw [e1, e2, e3, e4, e5, hc, hc, hc, hc, hc]
  simp only [List.length_map]
  rw [filter_five_categories]
  simp only [categorized_stream, List.length_append, List.length_map]

/-! ## Content generation (src/content_generator.py, src/app.py) -/

/-- One commit entry inside a generation pull-request record; both fields
are read with `.get(..., '')`, so they are optional. -/
structure GenCommit where
  message : Option String
  explanation : Option String
deriving DecidableEq, Repr

/-- One pull-request record inside `processed_content['pull_requests']`.
`number`, `title` and `body` are read with `pr['...']` (a missing key raises
`KeyError`); `commits` is read with `pr.get('commits', [])`. -/
structure GenPR where
  number : Option Int
  title : Option String
  body : Option String
  commits : Option (List GenCommit)
deriving DecidableEq, Repr

/-- The `processed_content` object passed to generation; only the
`pull_requests` key is read, with `content.get('pull_requests', [])`. -/
structure GenContent where
  pull_requests : Option (List GenPR)
deriving DecidableEq, Repr

/-- Python `d['key']`: succeed on a present key, raise `KeyError` otherwise. -/
def dict_lookup {α : Type} (v : Option α) (key : String) : Except String α :=
  match v with
  | some a => Except.ok a
  | none => Except.error ("KeyError: " ++ key)

/-- The `commits_summary` string built for one pull request (tolerant reads
with empty-string defaults). -/
def commits_summary (commits : List GenCommit) : String :=
  String.intercalate "\n" (commits.map fun c =>
    "- " ++ c.message.getD "" ++ ": " ++ c.explanation.getD "")

/-- The `pr_summary` block built for one pull request inside
`_generate_with_openai`; `pr['number']`, `pr['title']` and `pr['body']` are
required lookups, `pr.get('commits', [])` defaults to the empty list. -/
def pr_summary (pr : GenPR) : Except String String := do
  let n ← dict_lookup pr.number "number"
  let t ← dict_lookup pr.title "title"
  let b ← dict_lookup pr.body "body"
  Except.ok ("PR #" ++ toString n ++ ": " ++ t ++ "\n" ++ b ++ "\n\nCommits:\n" ++
    commits_summary (pr.commits.getD []))

/-- The `for pr in prs` loop accumulating `pr_summaries`: the first record
that raises propagates the error for the whole request. -/
def build_pr_summaries : List GenPR → Except String (List String)
  | [] => Except.ok []
  | pr :: rest =>
    match pr_summary pr with
    | Except.error e => Except.error e
    | Except.ok s =>
      match build_pr_summaries rest with
      | Except.error e => Except.error e
      | Except.ok ss => Except.ok (s :: ss)

/-- `ContentGenerator._create_prompt`: pick the template for the content
type, falling back to the blog-post template for unrecognized types.
(Template prose abridged; the lookup-with-fallback structure is kept.) -/
def create_prompt (pr_summaries : List String) (content_type : String) : String :=
  let summaries_text := String.intercalate "\n\n" pr_summaries
  if content_type = "release_notes" then
    "Create release notes from these changes:\n" ++ summaries_text
  else if content_type = "tweet" then
    "Write an engaging tweet thread (3-5 tweets) about these updates:\n" ++ summaries_text
  else if content_type = "feature_page" then
    "Create a feature page describing these changes:\n" ++ summaries_text
  else
    "Write a technical blog post about the following changes:\n" ++ summaries_text

/-- `ContentGenerator._generate_with_openai`: build the per-PR summaries
(raising on a missing required key), render the prompt, and call the
completion oracle. -/
def generate_with_openai (ai : String → Except String String)
    (content : GenContent) (content_type : String) : Except String String := do
  let prs := content.pull_requests.getD []
  let pr_summaries ← build_pr_summaries prs
  ai (create_prompt pr_summaries content_type)

/-- The `/api/generate-content` handler of src/app.py around the generator:
any exception raised during generation is re-surfaced as a 500 with a
"Failed to generate content" detail string. -/
def generate_content_endpoint (ai : String → Except String String)
    (processed_content : GenContent) (content_type : String) :
    Except (Nat × String) String :=
  match generate_with_openai ai processed_content content_type with
  | Except.ok text => Except.ok text
  | Except.error e => Except.error (500, "Failed to generate content: " ++ e)

theorem except_error_bind {e : String} {a b : Type} (f : a → Except String b) :
    (Except.error e : Except String a) >>= f = Except.error e := rfl

theorem except_ok_bind {a b : Type} (x : a) (f : a → Except String b) :
    (Except.ok x : Except String a) >>= f = f x := rfl

theorem pr_summary_error_of_missing (pr : GenPR)
    (h : pr.number = none ∨ pr.title = none ∨ pr.body = none) :
    ∃ e, pr_summary pr = Except.error e := by
  rcases h with h | h | h
  · exact ⟨"KeyError: number", by simp [pr_summary, dict_lookup, h, except_error_bind, except_ok_bind]⟩
  · cases hn : pr.number with
    | none => exact ⟨"KeyError: number", by simp [pr_summary, dict_lookup, hn, except_error_bind, except_ok_bind]⟩
    | some n =>
      exact ⟨"KeyError: title", by simp [pr_summary, dict_lookup, hn, h, except_error_bind, except_ok_bind]⟩
  · cases hn : pr.number with
    | none => exact ⟨"KeyError: number", by simp [pr_summary, dict_lookup, hn, except_error_bind, except_ok_bind]⟩
    | some n =>
      cases ht : pr.title with
      | none => exact ⟨"KeyError: title", by simp [pr_summary, dict_lookup, hn, ht, except_error_bind, except_ok_bind]⟩
      | some t =>
        exact ⟨"KeyError: body", by simp [pr_summary, dict_lookup, hn, ht, h, except_error_bind, except_ok_bind]⟩

theorem build_pr_summaries_error (prs : List GenPR)
    (h : ∃ pr ∈ prs, pr.number = none ∨ pr.title = none ∨ pr.body = none) :
    ∃ e, build_pr_summaries prs = Except.error e := by
  induction prs with
  | nil => exact absurd h (by simp)
  | cons pr rest ih =>
    rcases h with ⟨q, hq, hbad⟩
    rcases List.mem_cons.mp hq with rfl | hmem
    · obtain ⟨e, he⟩ := pr_summary_error_of_missing q hbad
      exact ⟨e, by simp [build_pr_summaries, he]⟩
    · cases hs : pr_summary pr with
      | error e => exact ⟨e, by simp [build_pr_summaries, hs]⟩
      | ok s =>
        obtain ⟨e, he⟩ := ih ⟨q, hmem, hbad⟩
        exact ⟨e, by simp [build_pr_summaries, hs, he]⟩

/-- Claim C10: generation requires each pull-request record to carry the
keys number, title and body — if any record lacks one, generation raises a
key-lookup error and the endpoint surfaces it as a 500 generation failure —
whereas a missing commits key is tolerated and read as the empty commit
list. -/
theorem generate_requires_pr_keys (ai : String → Except String String)
    (prs : List GenPR) (content_type : String) (pr0 : GenPR)
    (h : ∃ pr ∈ prs, pr.number = none ∨ pr.title = none ∨ pr.body = none)
    (hc : pr0.commits = none) :
    (∃ e, generate_with_openai ai ⟨some prs⟩ content_type = Except.error e ∧
      generate_content_endpoint ai ⟨some prs⟩ content_type =
        Except.error (500, "Failed to generate content: " ++ e)) ∧
    pr_summary pr0 = pr_summary { pr0 with commits := some [] } := by
  constructor
  · obtain ⟨e, he⟩ := build_pr_summaries_error prs h
    exact ⟨e, by simp [generate_with_openai, he, except_error_bind],
      by simp [generate_content_endpoint, generate_with_openai, he, except_error_bind]⟩
  · simp [pr_summary, hc]

theorem generate_requires_pr_keys_witness :
    (∃ e, generate_with_openai (fun _ => Except.ok "text")
        ⟨some [⟨none, some "t", some "b", none⟩]⟩ "blog_post" = Except.error e ∧
      generate_content_endpoint (fun _ => Except.ok "text")
        ⟨some [⟨none, some "t", some "b", none⟩]⟩ "blog_post" =
        Except.error (500, "Failed to generate content: " ++ e)) ∧
    pr_summary ⟨some 1, some "t", some "b", none⟩ =
      pr_summary ⟨some 1, some "t", some "b", some []⟩ :=
  generate_requires_pr_keys (fun _ => Except.ok "text")
    [⟨none, some "t", some "b", none⟩] "blog_post"
    ⟨some 1, some "t", some "b", none⟩
    ⟨⟨none, some "t", some "b", none⟩, by simp, Or.inl rfl⟩ rfl
